import Mathlib

/-!
Shallow embedding of src/aipipe.py, a command line dispatcher that forwards a
prompt to one of several LLM completion APIs and optionally extracts a fenced
code block from the response.  Python strings are modelled as Lean String,
Python truthiness of a string as inequality with the empty string, and the
Python and/or chains at lines 88-90 are evaluated explicitly while recording
which provider calls happen.  The regular expression at line 47 is modelled
character by character on List Char, following re.search semantics: leftmost
start position wins, the language tag run is greedy over its character class,
and the captured group is lazy (shortest extension up to the closing fence).
-/

/-- The backtick character, written via its code point. -/
def btick : Char := Char.ofNat 96

/-- Python truthiness of a string: nonempty strings are truthy. -/
def pyTruthy (s : String) : Bool := s != ""

/-- Values flowing through the Python and/or chains of src/aipipe.py:
booleans, strings, and None (os.getenv returns None when the variable
is unset, so GROQ_MODEL may be None). -/
inductive PyVal where
  | pybool (b : Bool)
  | pystr (s : String)
  | pynone
  deriving DecidableEq

/-- Python truthiness of a PyVal. -/
def PyVal.truthy : PyVal → Bool
  | .pybool b => b
  | .pystr s => s != ""
  | .pynone => false

/-- Python x and y, for operands that are already evaluated pure values. -/
def pyAnd (x y : PyVal) : PyVal := if x.truthy then y else x

/-- Python x or y, for operands that are already evaluated pure values. -/
def pyOr (x y : PyVal) : PyVal := if x.truthy then x else y

/-- The fixed system instruction string of src/aipipe.py line 15. -/
def systemMessage : String :=
  "You are a helpful assistant. If the user merely asked a question, do not use a code block. If the user has asked for something written, put it in a code block (```)."

/-- The hardcoded Anthropic model name of src/aipipe.py line 13. -/
def ANTHROPIC_MODEL : String := "claude-3-haiku-20240307"

/-- One chat message of the OpenAI style request body. -/
structure ChatMessage where
  role : String
  content : String
  deriving DecidableEq

/-- The request built by getGroqCompletion (lines 17-25) and
getGpt4Completion (lines 27-34): model, optional max token ceiling, messages.
The model is a PyVal because the Groq path passes through whatever the flag
chain selected, which may be the GROQ_MODEL environment value (possibly None). -/
structure OpenAIChatRequest where
  model : PyVal
  max_tokens : Option Nat
  messages : List ChatMessage
  deriving DecidableEq

/-- The request built by getAnthropicCompletion (lines 36-44). -/
structure AnthropicRequest where
  model : String
  system : String
  max_tokens : Nat
  messages : List ChatMessage
  deriving DecidableEq

/-- The request getGroqCompletion sends, from src/aipipe.py lines 19-24. -/
def groqRequest (userMessage : String) (groqModel : PyVal) : OpenAIChatRequest :=
  ⟨groqModel, some 4000, [⟨"system", systemMessage⟩, ⟨"user", userMessage⟩]⟩

/-- The request getGpt4Completion sends, from src/aipipe.py lines 29-33:
note the absence of a max token ceiling. -/
def gpt4Request (userMessage : String) : OpenAIChatRequest :=
  ⟨.pystr "gpt-4-0125-preview", none, [⟨"system", systemMessage⟩, ⟨"user", userMessage⟩]⟩

/-- The request getAnthropicCompletion sends, from src/aipipe.py lines 38-43. -/
def anthropicRequest (userMessage : String) : AnthropicRequest :=
  ⟨ANTHROPIC_MODEL, systemMessage, 4000, [⟨"user", userMessage⟩]⟩

/-- Characters of the language tag class [a-zA-Z0-9.] in the regex of line 47. -/
def isTagChar (c : Char) : Bool := c.isAlpha || c.isDigit || c == '.'

/-- Whether the list starts with the closing sequence newline, backtick,
backtick, backtick, the suffix the regex requires after the captured group. -/
def isTermAt (l : List Char) : Bool :=
  match l with
  | a :: b :: c :: d :: _ => a == '\n' && b == btick && c == btick && d == btick
  | _ => false

/-- Whether the closing sequence occurs at some position of the list. -/
def containsTerm : List Char → Bool
  | [] => false
  | c :: rest => isTermAt (c :: rest) || containsTerm rest

/-- Scan for the closing sequence, returning the chars before its first
occurrence; none when it never occurs. -/
def findTerm : List Char → Option (List Char)
  | [] => none
  | c :: rest =>
    if isTermAt (c :: rest) then some []
    else (findTerm rest).map (List.cons c)

/-- The lazy one-or-more capture group: at least one character, then the
shortest extension after which the closing sequence follows. -/
def captureLazy : List Char → Option (List Char)
  | [] => none
  | c :: rest => (findTerm rest).map (List.cons c)

/-- After the greedy language tag run the regex requires a newline and then
the captured body. -/
def afterTag : List Char → Option (List Char)
  | d :: body => if d = '\n' then captureLazy body else none
  | [] => none

/-- Attempt to match the fenced code block regex at the head of the list:
three backticks, a greedy run over the tag class, a newline, then the lazy
capture up to the closing sequence. -/
def matchCodeBlockAt (l : List Char) : Option (List Char) :=
  match l with
  | a :: b :: c :: rest =>
    if a = btick ∧ b = btick ∧ c = btick then afterTag (rest.dropWhile isTagChar)
    else none
  | _ => none

/-- re.search semantics: try each start position from left to right. -/
def searchCodeBlock : List Char → Option (List Char)
  | [] => none
  | c :: rest =>
    match matchCodeBlockAt (c :: rest) with
    | some cap => some cap
    | none => searchCodeBlock rest

/-- extract_code_block from src/aipipe.py lines 46-49: the captured group of
the first regex match, or the whole text when there is no match. -/
def extract_code_block (completion : String) : String :=
  match searchCodeBlock completion.data with
  | some cap => String.mk cap
  | none => completion

/-- The code points Python str.isspace treats as whitespace. -/
def pyWhitespaceCodes : List Nat :=
  [9, 10, 11, 12, 13, 28, 29, 30, 31, 32, 133, 160, 5760,
   8192, 8193, 8194, 8195, 8196, 8197, 8198, 8199, 8200, 8201, 8202,
   8232, 8233, 8239, 8287, 12288]

/-- Whether one character counts as whitespace for Python str.isspace. -/
def pyIsSpaceChar (c : Char) : Bool := pyWhitespaceCodes.contains c.toNat

/-- Python str.isspace: at least one character and every character whitespace. -/
def pyIsSpace (s : String) : Bool := !s.data.isEmpty && s.data.all pyIsSpaceChar

/-- The guard of src/aipipe.py line 84:
not prompt or prompt equal to the empty string or prompt.isspace(). -/
def emptyPromptCheck (prompt : String) : Bool :=
  !(pyTruthy prompt) || prompt == "" || pyIsSpace prompt

/-- Lines 71-82 of src/aipipe.py.  The local variable filePrompt is assigned
only when stdin is not a tty; it is modelled as an Option, and reading it
while unassigned is the Python UnboundLocalError, modelled as the error case. -/
def composePrompt (isatty : Bool) (stdinText argsPrompt : String) :
    Except String String :=
  let filePrompt : Option String := if isatty then none else some stdinText
  if pyTruthy argsPrompt then
    if isatty then Except.ok argsPrompt
    else
      match filePrompt with
      | some fp => Except.ok (fp ++ "\n----\n" ++ argsPrompt)
      | none => Except.error "UnboundLocalError: filePrompt"
  else
    match filePrompt with
    | some fp => Except.ok fp
    | none => Except.error "UnboundLocalError: filePrompt"

/-- The parsed command line of src/aipipe.py lines 56-64. -/
structure Args where
  prompt : String
  codeblock : Bool
  haiku : Bool
  mx : Bool
  l370 : Bool
  gpt4 : Bool
  deriving DecidableEq

/-- The option strings argparse accepts, from lines 58-62. -/
def knownFlags : List String :=
  ["--codeblock", "--cb", "--haiku", "--mx", "--l370", "--gpt4"]

/-- Model of parser.parse_args() over sys.argv[1:], for token lists whose
entries are either the known option strings or plain positional text.  The
positional prompt is declared without nargs at line 57, so argparse requires
exactly one positional: with zero (or more than one) it errors out and exits,
modelled as none. -/
def parseArgs (tokens : List String) : Option Args :=
  match tokens.filter (fun t => !(knownFlags.contains t)) with
  | [p] =>
    some ⟨p,
      tokens.contains "--codeblock" || tokens.contains "--cb",
      tokens.contains "--haiku",
      tokens.contains "--mx",
      tokens.contains "--l370",
      tokens.contains "--gpt4"⟩
  | _ => none

/-- One provider call issued while evaluating the chain at lines 88-90,
recording the user message sent and, for the Groq path, the model argument. -/
inductive CallEv where
  | anthropic (userMessage : String)
  | openaiGpt4 (userMessage : String)
  | groq (userMessage : String) (model : PyVal)
  deriving DecidableEq

/-- The model argument expression of line 90:
useMixtral and the Mixtral name or useLlama and the Llama name or GROQ_MODEL. -/
def groqModelChoice (useMixtral useLlama : Bool) (groqModelEnv : PyVal) : PyVal :=
  pyOr (pyAnd (.pybool useMixtral) (.pystr "mixtral-8x7b-32768"))
    (pyOr (pyAnd (.pybool useLlama) (.pystr "llama3-70b-8192")) groqModelEnv)

/-- Left to right lazy evaluation of the chain at lines 88-90:
useHaiku and getAnthropicCompletion(prompt)
or useGpt4 and getGpt4Completion(prompt)
or getGroqCompletion(prompt, model expression).
The three provider responses are oracle parameters; the list records which
calls actually happen, in order.  A conjunct whose flag is false contributes
False without calling; a called provider whose response is the empty string is
falsy, so the or chain falls through to the next conjunct. -/
def runDispatch (userMessage : String) (useHaiku useMixtral useLlama useGpt4 : Bool)
    (groqModelEnv : PyVal) (claudeResp gpt4Resp groqResp : String) :
    List CallEv × String :=
  let aCalls : List CallEv := if useHaiku then [CallEv.anthropic userMessage] else []
  if useHaiku && pyTruthy claudeResp then (aCalls, claudeResp)
  else
    let bCalls : List CallEv :=
      aCalls ++ (if useGpt4 then [CallEv.openaiGpt4 userMessage] else [])
    if useGpt4 && pyTruthy gpt4Resp then (bCalls, gpt4Resp)
    else
      (bCalls ++ [CallEv.groq userMessage (groqModelChoice useMixtral useLlama groqModelEnv)],
       groqResp)

/-- The observable outcome of one run of main. -/
inductive MainOutcome where
  | usage
  | argparseError
  | unboundLocalError
  | emptyPromptError
  | output (s : String)
  deriving DecidableEq

/-- Lines 64-96 of src/aipipe.py, after argparse has produced args:
compose the prompt, run the empty prompt guard (which prints to stderr and
returns 1, the emptyPromptError outcome), dispatch, optionally extract the
code block, and write the result to stdout. -/
def mainAfterParse (args : Args) (isatty : Bool) (stdinText : String)
    (groqModelEnv : PyVal) (claudeResp gpt4Resp groqResp : String) :
    List CallEv × MainOutcome :=
  match composePrompt isatty stdinText args.prompt with
  | Except.error _ => ([], MainOutcome.unboundLocalError)
  | Except.ok prompt =>
    if emptyPromptCheck prompt then ([], MainOutcome.emptyPromptError)
    else
      let d := runDispatch prompt args.haiku args.mx args.l370 args.gpt4
        groqModelEnv claudeResp gpt4Resp groqResp
      (d.1, MainOutcome.output (if args.codeblock then extract_code_block d.2 else d.2))

/-- The whole of main (lines 51-96): argv includes the program name; with
fewer than two entries main prints usage and returns (lines 52-54), then
argparse runs on the remaining tokens, then mainAfterParse. -/
def mainModel (argv : List String) (isatty : Bool) (stdinText : String)
    (groqModelEnv : PyVal) (claudeResp gpt4Resp groqResp : String) :
    List CallEv × MainOutcome :=
  if argv.length < 2 then ([], MainOutcome.usage)
  else
    match parseArgs argv.tail with
    | none => ([], MainOutcome.argparseError)
    | some args => mainAfterParse args isatty stdinText groqModelEnv claudeResp gpt4Resp groqResp

/-! ## Helper lemmas -/

theorem strData_append (a b : String) : (a ++ b).data = a.data ++ b.data := rfl

theorem fence_data : "```".data = [btick, btick, btick] := rfl

theorem nlfence_data : "\n```".data = '\n' :: btick :: btick :: btick :: [] := rfl

theorem nl_data : "\n".data = ['\n'] := rfl

theorem strNe_data (p : String) (h : p ≠ "") : p.data ≠ [] := by
  intro hd
  apply h
  cases p with
  | mk l =>
    have hl : l = [] := hd
    rw [hl]

theorem isEmpty_false_of_ne (l : List Char) (h : l ≠ []) : l.isEmpty = false := by
  cases l with
  | nil => exact absurd rfl h
  | cons a t => rfl

theorem matchAt_cons_ne (c : Char) (t : List Char) (hc : c ≠ btick) :
    matchCodeBlockAt (c :: t) = none := by
  match t with
  | [] => rfl
  | [x] => rfl
  | x :: y :: r =>
    simp only [matchCodeBlockAt]
    rw [if_neg]
    intro h
    exact hc h.1

theorem searchCodeBlock_skip (pre l : List Char)
    (h : pre.all (fun c => c != btick) = true) :
    searchCodeBlock (pre ++ l) = searchCodeBlock l := by
  induction pre with
  | nil => rfl
  | cons c p ih =>
    simp only [List.all_cons, Bool.and_eq_true, bne_iff_ne] at h
    simp only [List.cons_append, searchCodeBlock, List.append_eq]
    rw [matchAt_cons_ne c (p ++ l) h.1]
    exact ih h.2

theorem isTermAt_straddle (c : Char) (b2 rest : List Char)
    (h : isTermAt (c :: b2) = false) :
    isTermAt (c :: (b2 ++ '\n' :: btick :: btick :: btick :: rest)) = false := by
  have hnb : ('\n' == btick) = false := by decide
  rcases b2 with _ | ⟨x, b3⟩
  · simp [isTermAt, hnb]
  rcases b3 with _ | ⟨y, b4⟩
  · simp [isTermAt, hnb]
  rcases b4 with _ | ⟨z, r⟩
  · simp [isTermAt, hnb]
  · simpa [isTermAt] using h

theorem findTerm_append (body rest : List Char) :
    containsTerm body = false →
    findTerm (body ++ '\n' :: btick :: btick :: btick :: rest) = some body := by
  induction body with
  | nil =>
    intro _
    simp [findTerm, isTermAt]
  | cons c b2 ih =>
    intro h
    simp only [containsTerm, Bool.or_eq_false_iff] at h
    simp only [List.cons_append, findTerm, List.append_eq]
    rw [if_neg]
    · rw [ih h.2]
      rfl
    · simp [isTermAt_straddle c b2 rest h.1]

theorem captureLazy_append (body rest : List Char) (hne : body ≠ [])
    (h : containsTerm body = false) :
    captureLazy (body ++ '\n' :: btick :: btick :: btick :: rest) = some body := by
  rcases body with _ | ⟨c, b2⟩
  · exact absurd rfl hne
  · simp only [containsTerm, Bool.or_eq_false_iff] at h
    simp only [List.cons_append, captureLazy, List.append_eq]
    rw [findTerm_append b2 rest h.2]
    rfl

theorem dropWhile_tag (tag rest : List Char) :
    tag.all isTagChar = true →
    List.dropWhile isTagChar (tag ++ '\n' :: rest) = '\n' :: rest := by
  induction tag with
  | nil =>
    intro _
    have hn : isTagChar '\n' = false := by decide
    simp [List.dropWhile, hn]
  | cons c t ih =>
    intro h
    simp only [List.all_cons, Bool.and_eq_true] at h
    simp [List.dropWhile, h.1, ih h.2]

theorem matchAt_fence (tag body post : List Char)
    (htag : tag.all isTagChar = true) (hbody : body ≠ [])
    (hterm : containsTerm body = false) :
    matchCodeBlockAt
      (btick :: btick :: btick ::
        (tag ++ '\n' :: (body ++ '\n' :: btick :: btick :: btick :: post)))
      = some body := by
  have hd := dropWhile_tag tag (body ++ '\n' :: btick :: btick :: btick :: post) htag
  have hcap := captureLazy_append body post hbody hterm
  simp only [matchCodeBlockAt]
  rw [if_pos ⟨trivial, trivial, trivial⟩, hd]
  simp only [afterTag, if_true]
  exact hcap

theorem searchCodeBlock_block (pre tag body post : List Char)
    (hpre : pre.all (fun c => c != btick) = true)
    (htag : tag.all isTagChar = true)
    (hbody : body ≠ [])
    (hterm : containsTerm body = false) :
    searchCodeBlock
      (pre ++ btick :: btick :: btick ::
        (tag ++ '\n' :: (body ++ '\n' :: btick :: btick :: btick :: post)))
      = some body := by
  rw [searchCodeBlock_skip pre _ hpre]
  simp only [searchCodeBlock]
  rw [matchAt_fence tag body post htag hbody hterm]

/-! ## Claim theorems -/

/-- Claim C3: with stdin non interactive carrying the text context and the
positional argument question, the composed prompt is exactly the two sources
joined by the literal separator line. -/
theorem compose_context_question :
    composePrompt false "context" "question" = Except.ok "context\n----\nquestion" := rfl

/-- Claim C5: when the regex search of extract_code_block finds no fenced
code block in the string, the function returns the string unchanged, a no-op
fallback rather than an error. -/
theorem extract_no_block_noop (s : String)
    (h : searchCodeBlock s.data = none) :
    extract_code_block s = s := by
  unfold extract_code_block
  rw [h]

/-- Witness for C5 at a concrete block free string. -/
theorem extract_no_block_noop_witness :
    searchCodeBlock "no fenced block here".data = none
    ∧ extract_code_block "no fenced block here" = "no fenced block here" := by
  refine ⟨by decide, ?_⟩
  exact extract_no_block_noop "no fenced block here" (by decide)

/-- Claim C6: for a response holding exactly one fenced code block, written as
backtick free prefix text, an opening fence with a language tag over the tag
class, a newline, a nonempty body not containing the closing sequence, the
closing fence and arbitrary trailing text, extract_code_block returns exactly
the inner body, without the fence markers or the language tag.  The concrete
input of the claim is covered by the witness. -/
theorem extract_single_block (pre tag body post : String)
    (hpre : pre.data.all (fun c => c != btick) = true)
    (htag : tag.data.all isTagChar = true)
    (hbody : body.data ≠ [])
    (hterm : containsTerm body.data = false) :
    extract_code_block (pre ++ "```" ++ tag ++ "\n" ++ body ++ "\n```" ++ post) = body := by
  have hdata : (pre ++ "```" ++ tag ++ "\n" ++ body ++ "\n```" ++ post).data
      = pre.data ++ btick :: btick :: btick ::
          (tag.data ++ '\n' :: (body.data ++ '\n' :: btick :: btick :: btick :: post.data)) := by
    simp [strData_append, fence_data, nl_data, nlfence_data, List.append_assoc]
    decide
  unfold extract_code_block
  rw [hdata, searchCodeBlock_block pre.data tag.data body.data post.data hpre htag hbody hterm]

/-- Witness for C6 at the concrete input of the claim: the response
Here: followed by a python tagged block around print(1). -/
theorem extract_single_block_witness :
    ("Here:\n".data.all (fun c => c != btick) = true)
    ∧ ("python".data.all isTagChar = true)
    ∧ ("print(1)".data ≠ [])
    ∧ (containsTerm "print(1)".data = false)
    ∧ extract_code_block "Here:\n```python\nprint(1)\n```\n" = "print(1)" := by
  refine ⟨by decide, by decide, by decide, by decide, ?_⟩
  have h := extract_single_block "Here:\n" "python" "print(1)" "\n"
    (by decide) (by decide) (by decide) (by decide)
  have he : ("Here:\n" ++ "```" ++ "python" ++ "\n" ++ "print(1)" ++ "\n```" ++ "\n" : String)
      = "Here:\n```python\nprint(1)\n```\n" := rfl
  rw [he] at h
  exact h

/-- Claim C10: on an input holding two (or more) fenced code blocks, written
as a backtick free prefix, a first well formed block, arbitrary middle text, a
second well formed block and arbitrary trailing text, extract_code_block
returns the inner content of the first (leftmost) block only; the prefix, the
second block and the trailing text are all dropped. -/
theorem extract_first_of_two_blocks (pre tag1 body1 mid tag2 body2 post : String)
    (hpre : pre.data.all (fun c => c != btick) = true)
    (htag1 : tag1.data.all isTagChar = true)
    (hbody1 : body1.data ≠ [])
    (hterm1 : containsTerm body1.data = false)
    (htag2 : tag2.data.all isTagChar = true)
    (hbody2 : body2.data ≠ []) :
    extract_code_block
      (pre ++ "```" ++ tag1 ++ "\n" ++ body1 ++ "\n```" ++ mid
        ++ "```" ++ tag2 ++ "\n" ++ body2 ++ "\n```" ++ post) = body1 := by
  have hdata : (pre ++ "```" ++ tag1 ++ "\n" ++ body1 ++ "\n```" ++ mid
        ++ "```" ++ tag2 ++ "\n" ++ body2 ++ "\n```" ++ post).data
      = pre.data ++ btick :: btick :: btick ::
          (tag1.data ++ '\n' :: (body1.data ++ '\n' :: btick :: btick :: btick ::
            (mid.data ++ btick :: btick :: btick ::
              (tag2.data ++ '\n' :: (body2.data ++ '\n' :: btick :: btick :: btick :: post.data))))) := by
    simp [strData_append, fence_data, nl_data, nlfence_data, List.append_assoc]
    decide
  unfold extract_code_block
  rw [hdata, searchCodeBlock_block pre.data tag1.data body1.data
    (mid.data ++ btick :: btick :: btick ::
      (tag2.data ++ '\n' :: (body2.data ++ '\n' :: btick :: btick :: btick :: post.data)))
    hpre htag1 hbody1 hterm1]

/-- Witness for C10 at a concrete two block input: the first body is returned,
the second dropped. -/
theorem extract_first_of_two_blocks_witness :
    ("A\n".data.all (fun c => c != btick) = true)
    ∧ (containsTerm "first".data = false)
    ∧ extract_code_block "A\n```a\nfirst\n```\nmid\n```b\nsecond\n```\ntail" = "first" := by
  refine ⟨by decide, by decide, ?_⟩
  have h := extract_first_of_two_blocks "A\n" "a" "first" "\nmid\n" "b" "second" "\ntail"
    (by decide) (by decide) (by decide) (by decide) (by decide) (by decide)
  have he : ("A\n" ++ "```" ++ "a" ++ "\n" ++ "first" ++ "\n```" ++ "\nmid\n"
      ++ "```" ++ "b" ++ "\n" ++ "second" ++ "\n```" ++ "\ntail" : String)
      = "A\n```a\nfirst\n```\nmid\n```b\nsecond\n```\ntail" := rfl
  rw [he] at h
  exact h

/-- Claim C7: the Groq path and the Claude path both send a max token ceiling
of exactly 4000 together with the shared fixed system instruction string
(first message for the OpenAI style body, the dedicated system field for the
Anthropic body), while the GPT-4 path sends the same system instruction but no
max token ceiling. -/
theorem request_parameters (u : String) (m : PyVal) :
    (groqRequest u m).max_tokens = some 4000
    ∧ (anthropicRequest u).max_tokens = 4000
    ∧ (gpt4Request u).max_tokens = none
    ∧ (groqRequest u m).messages = [⟨"system", systemMessage⟩, ⟨"user", u⟩]
    ∧ (gpt4Request u).messages = [⟨"system", systemMessage⟩, ⟨"user", u⟩]
    ∧ (anthropicRequest u).system = systemMessage :=
  ⟨rfl, rfl, rfl, rfl, rfl, rfl⟩

/-- Claim C8: with neither the haiku nor the gpt4 flag set, the Groq path is
the only call issued, with the model selected as: the Mixtral name when mx is
set (taking precedence even when l370 is also set), else the Llama name when
l370 is set, else the GROQ_MODEL environment value. -/
theorem groq_model_selection (useMixtral useLlama : Bool) (groqModelEnv : PyVal)
    (p claudeResp gpt4Resp groqResp : String) :
    runDispatch p false useMixtral useLlama false groqModelEnv claudeResp gpt4Resp groqResp
      = ([CallEv.groq p (if useMixtral then PyVal.pystr "mixtral-8x7b-32768"
          else if useLlama then PyVal.pystr "llama3-70b-8192" else groqModelEnv)],
         groqResp) := by
  cases useMixtral <;> cases useLlama <;> rfl

/-- Claim C1 counterexample: with both the haiku and the gpt4 flag set and a
Claude response equal to the empty string, the or chain of lines 88-90 treats
the Claude result as falsy and falls through, so the GPT-4 path is also
invoked; the claim that only Claude is ever called regardless of what string
the Claude call returns is false on the code. -/
theorem dispatch_both_flags_counterexample :
    runDispatch "hi" true false false true (PyVal.pystr "m") "" "ok" "g"
      = ([CallEv.anthropic "hi", CallEv.openaiGpt4 "hi"], "ok") := rfl

/-- Claim C1 as amended: provided the Claude and GPT-4 calls return nonempty
(truthy) strings, exactly one of the four completion paths is invoked for
every flag combination and prompt, selected with the fixed precedence Claude
over GPT-4 over Groq; in particular with both haiku and gpt4 set and a
nonempty Claude response, only the Claude path is called. -/
theorem dispatch_precedence_exactly_one (p : String)
    (useHaiku useMixtral useLlama useGpt4 : Bool) (groqModelEnv : PyVal)
    (claudeResp gpt4Resp groqResp : String)
    (hc : claudeResp ≠ "") (hg : gpt4Resp ≠ "") :
    (runDispatch p useHaiku useMixtral useLlama useGpt4 groqModelEnv
      claudeResp gpt4Resp groqResp).1
      = [if useHaiku then CallEv.anthropic p
         else if useGpt4 then CallEv.openaiGpt4 p
         else CallEv.groq p (groqModelChoice useMixtral useLlama groqModelEnv)] := by
  cases useHaiku <;> cases useGpt4 <;>
    simp [runDispatch, pyTruthy, bne_iff_ne, hc, hg]

/-- Witness for the amended C1: both flags set, nonempty responses, only the
Claude path called. -/
theorem dispatch_precedence_exactly_one_witness :
    ("ok" : String) ≠ ""
    ∧ (runDispatch "hi" true false false true (PyVal.pystr "m") "ok" "ok" "g").1
      = [CallEv.anthropic "hi"] := by
  refine ⟨by decide, ?_⟩
  have h := dispatch_precedence_exactly_one "hi" true false false true (PyVal.pystr "m")
    "ok" "ok" "g" (by decide) (by decide)
  simpa using h

/-- Claim C2 counterexample: with the text just this piped on stdin and no
command line argument at all, sys.argv holds only the program name, so main
prints usage and returns at lines 52-54: no prompt is composed and no provider
is dispatched, contradicting the claim as stated. -/
theorem piped_no_argument_counterexample :
    mainModel ["aipipe.py"] false "just this" (PyVal.pystr "m") "c" "g" "r"
      = ([], MainOutcome.usage) := rfl

/-- Claim C2 as amended: the positional prompt argument is required by
argparse, so the piped-text-alone composition of line 82 is reached only when
the positional argument is supplied but empty; in that case, when the piped
text does not trip the empty prompt guard, the composed prompt equals the
piped text verbatim and is dispatched to a provider. -/
theorem piped_only_prompt_verbatim (stdinText : String) (groqModelEnv : PyVal)
    (claudeResp gpt4Resp groqResp : String)
    (hne : emptyPromptCheck stdinText = false) :
    composePrompt false stdinText "" = Except.ok stdinText
    ∧ mainModel ["aipipe.py", ""] false stdinText groqModelEnv claudeResp gpt4Resp groqResp
      = ([CallEv.groq stdinText (groqModelChoice false false groqModelEnv)],
         MainOutcome.output groqResp) := by
  refine ⟨rfl, ?_⟩
  have h1 : mainModel ["aipipe.py", ""] false stdinText groqModelEnv claudeResp gpt4Resp groqResp
      = (if emptyPromptCheck stdinText then ([], MainOutcome.emptyPromptError)
         else ([CallEv.groq stdinText (groqModelChoice false false groqModelEnv)],
           MainOutcome.output groqResp)) := rfl
  rw [h1, if_neg]
  simp [hne]

/-- Witness for the amended C2 at the piped text of the claim. -/
theorem piped_only_prompt_verbatim_witness :
    emptyPromptCheck "just this" = false
    ∧ composePrompt false "just this" "" = Except.ok "just this"
    ∧ mainModel ["aipipe.py", ""] false "just this" (PyVal.pystr "m") "c" "g" "r"
      = ([CallEv.groq "just this" (groqModelChoice false false (PyVal.pystr "m"))],
         MainOutcome.output "r") := by
  refine ⟨by decide, ?_, ?_⟩
  · exact (piped_only_prompt_verbatim "just this" (PyVal.pystr "m") "c" "g" "r" (by decide)).1
  · exact (piped_only_prompt_verbatim "just this" (PyVal.pystr "m") "c" "g" "r" (by decide)).2

/-- Claim C4: whenever the composed prompt is empty or consists only of
whitespace, main prints the error message to stderr and returns 1 (the
emptyPromptError outcome) without calling any provider, for every flag
combination. -/
theorem empty_prompt_error_path (args : Args) (isatty : Bool)
    (stdinText : String) (groqModelEnv : PyVal)
    (claudeResp gpt4Resp groqResp : String) (p : String)
    (hcomp : composePrompt isatty stdinText args.prompt = Except.ok p)
    (hp : p = "" ∨ (p ≠ "" ∧ p.data.all pyIsSpaceChar = true)) :
    mainAfterParse args isatty stdinText groqModelEnv claudeResp gpt4Resp groqResp
      = ([], MainOutcome.emptyPromptError) := by
  have hcheck : emptyPromptCheck p = true := by
    rcases hp with h1 | ⟨h2, h3⟩
    · simp [emptyPromptCheck, pyTruthy, h1]
    · have h4 : p.data.isEmpty = false := isEmpty_false_of_ne p.data (strNe_data p h2)
      simp [emptyPromptCheck, pyIsSpace, h3, h4]
  simp [mainAfterParse, hcomp, hcheck]

/-- Witness for C4: whitespace only piped text, empty positional argument and
all provider flags set still reach the empty prompt error with no calls. -/
theorem empty_prompt_error_path_witness :
    composePrompt false " \t\n" "" = Except.ok " \t\n"
    ∧ mainAfterParse ⟨"", true, true, true, true, true⟩ false " \t\n" (PyVal.pystr "m") "c" "g" "r"
      = ([], MainOutcome.emptyPromptError) := by
  refine ⟨rfl, ?_⟩
  exact empty_prompt_error_path ⟨"", true, true, true, true, true⟩ false " \t\n" (PyVal.pystr "m")
    "c" "g" "r" " \t\n" rfl (Or.inr ⟨by decide, by decide⟩)

/-- Claim C9: with stdin an interactive terminal and the positional prompt
argument supplied but equal to the empty string, line 82 reads the never
assigned local filePrompt, so the run ends in the unbound local variable
error, not in the empty prompt error message of line 85. -/
theorem empty_cli_prompt_tty_unbound (stdinText : String) (groqModelEnv : PyVal)
    (claudeResp gpt4Resp groqResp : String) :
    mainModel ["aipipe.py", ""] true stdinText groqModelEnv claudeResp gpt4Resp groqResp
      = ([], MainOutcome.unboundLocalError)
    ∧ mainModel ["aipipe.py", ""] true stdinText groqModelEnv claudeResp gpt4Resp groqResp
      ≠ ([], MainOutcome.emptyPromptError) := by
  refine ⟨rfl, ?_⟩
  intro hcontra
  rw [show mainModel ["aipipe.py", ""] true stdinText groqModelEnv claudeResp gpt4Resp groqResp
    = ([], MainOutcome.unboundLocalError) from rfl] at hcontra
  exact absurd hcontra (by decide)
